import Mathlib

/-!
Verification development for the XXSim order-execution simulator.

Layer 1 (`XXSim` namespace, source layer) is a shallow embedding of the
code under `src/`: the pydantic models (`bar.py`, `order.py`, `fill.py`,
`execution_result.py`) and the bar-level engine `execution.py`.  Python
`Decimal` prices are embedded as `Rat` (exact decimal arithmetic),
`datetime` values as `Nat` tokens, and code that can raise is embedded in
`Except PyErr`.  Pydantic attribute lookups that can fail are made
explicit, because the engine reads attributes (`lmtPrice`, `auxPrice`)
that the refactored `Order` model no longer defines.

Layer 2 (`SpecModel` namespace) models the recursive
`execute(order, bar, parentId) -> ExecutionResult` engine that the
specification (sections 4.1 to 4.4) and the repository's own tests
(`test_execution_result.py`, `test_stop_limit_orders_execution.py`,
`test_trailing_stop_market.py`) describe, but whose implementation is not
present under `src/` (the `execution.py` present there is the earlier
phase returning `Optional[Fill]`).  Those definitions are marked
`Modelled from the spec:`.
-/

namespace XXSim

/-- Error classes that the embedded Python code can raise, following the
taxonomy of spec section 7.  In the source all four surface as Python
`AttributeError` or `ValueError`; the distinct constructors record which
rule raised. -/
inductive PyErr where
  | attributeError : PyErr
  | unsupportedOrderType (orderType : String) : PyErr
  | invalidBar (msg : String) : PyErr
  | invariantViolation (msg : String) : PyErr
  deriving DecidableEq, Repr

/-- OHLCV bar data, from `src/src/models/bar.py` lines 6 to 16.  The
`datetime` field is embedded as an abstract `Nat` token (only identity of
the date matters to the engine). -/
structure BarData where
  date : Nat
  «open» : Rat := 0
  high : Rat := 0
  low : Rat := 0
  close : Rat := 0
  volume : Nat := 0
  deriving DecidableEq, Repr

namespace BarData

/-- Field validator `date_required` (`bar.py` lines 18 to 23): a null
(`None`) date is rejected at construction. -/
def date_required (v : Option Nat) : Except PyErr Nat :=
  match v with
  | none => .error (.invalidBar "date cannot be null")
  | some d => .ok d

/-- Model validator `validate_ohlc` (`bar.py` lines 25 to 38): the five
pairwise OHLC checks, in source order. -/
def validate_ohlc (b : BarData) : Except PyErr BarData :=
  if b.high < b.low then .error (.invalidBar "High must be >= Low")
  else if b.high < b.«open» then .error (.invalidBar "High must be >= Open")
  else if b.high < b.close then .error (.invalidBar "High must be >= Close")
  else if b.low > b.«open» then .error (.invalidBar "Low must be <= Open")
  else if b.low > b.close then .error (.invalidBar "Low must be <= Close")
  else .ok b

/-- Constructing a `BarData` through pydantic: the `date` field validator
runs first, then the model validator `validate_ohlc`. -/
def construct (date : Option Nat) (o h l c : Rat) (volume : Nat) :
    Except PyErr BarData :=
  match date_required date with
  | .error e => .error e
  | .ok d =>
    validate_ohlc { date := d, «open» := o, high := h, low := l, close := c, volume := volume }

end BarData

/-- Sentinel for an unset price.  In the source it is
`UNSET_DOUBLE = Decimal('inf')` (`order.py` line 6); rationals have no
infinity, so the sentinel is modelled as a distinguished large value.  No
engine code path ever reads the `price` field, so the choice is
immaterial to every theorem below. -/
def UNSET_DOUBLE : Rat := 2147483647

/-- Sentinel `UNSET_INTEGER = 2**31 - 1` (`order.py` line 7), the default
`parentId`. -/
def UNSET_INTEGER : Nat := 2 ^ 31 - 1

/-- The order model from `src/src/models/order.py` lines 10 to 33.  The
fields read or written anywhere in the engine or the constructors are
kept (orderId, action, totalQuantity, orderType, price, parentId,
children); the remaining constant string/bool fields (clientId, tif,
goodTillDate, goodAfterTime, ocaGroup, orderRef, transmit) are never read
by any code modelled here and are omitted.  Note the model defines a
single price field named `price`; there is no `lmtPrice` and no
`auxPrice` field.  `children` makes the type recursive, hence an
inductive with one constructor. -/
inductive Order where
  | mk (orderId : Nat) (action : String) (totalQuantity : Rat)
      (orderType : String) (price : Rat) (parentId : Nat)
      (children : List Order) : Order

namespace Order

def orderId : Order → Nat
  | .mk i _ _ _ _ _ _ => i

def action : Order → String
  | .mk _ a _ _ _ _ _ => a

def totalQuantity : Order → Rat
  | .mk _ _ q _ _ _ _ => q

def orderType : Order → String
  | .mk _ _ _ t _ _ _ => t

def price : Order → Rat
  | .mk _ _ _ _ p _ _ => p

def parentId : Order → Nat
  | .mk _ _ _ _ _ pid _ => pid

def children : Order → List Order
  | .mk _ _ _ _ _ _ cs => cs

/-- Replace the parentId field (used by `add_child`). -/
def setParentId : Order → Nat → Order
  | .mk i a q t p _ cs, pid => .mk i a q t p pid cs

/-- Method `add_child` (`order.py` lines 47 to 50): sets the child's
`parentId` to this order's `orderId` and appends it to `children`. -/
def add_child : Order → Order → Order
  | .mk i a q t p pid cs, c => .mk i a q t p pid (cs ++ [c.setParentId i])

/-- Pydantic attribute lookup for a `Decimal`-valued attribute on the
`Order` model.  `order.py` lines 20 to 33 declare exactly one Decimal
field, `price`; looking up any other attribute name (in particular the
`lmtPrice` and `auxPrice` names the engine reads) raises
`AttributeError`. -/
def getPriceAttr (o : Order) (name : String) : Except PyErr Rat :=
  if name = "price" then .ok o.price else .error .attributeError

end Order

/-- Constructor `MarketOrder(action, totalQuantity)` (`order.py` lines 70
to 79): orderType "MKT", price left at the unset sentinel, no children.
The auto-assigned id is threaded explicitly. -/
def MarketOrder (action : String) (totalQuantity : Rat) (orderId : Nat) : Order :=
  .mk orderId action totalQuantity "MKT" UNSET_DOUBLE UNSET_INTEGER []

/-- Constructor `LimitOrder(action, totalQuantity, price)` (`order.py`
lines 52 to 68): orderType "LMT" and the limit price stored in the
`price` field. -/
def LimitOrder (action : String) (totalQuantity : Rat) (price : Rat) (orderId : Nat) : Order :=
  .mk orderId action totalQuantity "LMT" price UNSET_INTEGER []

/-- Constructor `StopOrder(action, totalQuantity, stopPrice)` (`order.py`
lines 81 to 99): orderType "STP", the stop price stored in the `price`
field, and one Market child added via `add_child`. -/
def StopOrder (action : String) (totalQuantity : Rat) (stopPrice : Rat)
    (orderId childId : Nat) : Order :=
  (Order.mk orderId action totalQuantity "STP" stopPrice UNSET_INTEGER []).add_child
    (MarketOrder action totalQuantity childId)

/-- Constructor `StopLimitOrder(action, totalQuantity, limitPrice,
stopPrice)` (`order.py` lines 101 to 120): orderType "STP LMT", the stop
price stored in the `price` field, and one Limit child priced at
`limitPrice` added via `add_child`. -/
def StopLimitOrder (action : String) (totalQuantity : Rat) (limitPrice stopPrice : Rat)
    (orderId childId : Nat) : Order :=
  (Order.mk orderId action totalQuantity "STP LMT" stopPrice UNSET_INTEGER []).add_child
    (LimitOrder action totalQuantity limitPrice childId)

/-- Execution record (`src/src/models/fill.py` lines 9 to 31); the fields
the engine sets or the tests read.  The remaining defaulted string and
numeric fields are never touched by the engine and are omitted. -/
structure Execution where
  orderId : Nat := 0
  time : Nat := 0
  shares : Rat := 0
  price : Rat := 0
  side : String := ""
  deriving DecidableEq, Repr

/-- Commission placeholder (`fill.py` lines 33 to 42). -/
structure CommissionReport where
  commission : Rat := 0
  currency : String := ""
  deriving DecidableEq, Repr

/-- Fill record (`fill.py` lines 45 to 55): order, execution, commission,
time, and a parentId defaulting to 0. -/
structure Fill where
  order : Order
  execution : Execution
  commissionReport : CommissionReport
  time : Nat
  parentId : Nat := 0

namespace ExecutionEngine

/-- Helper `_fill_at_price` (`execution.py` lines 269 to 293): build a
Fill for the order at the given price, with zero commission and the bar
date as time. -/
def fill_at_price (order : Order) (bar : BarData) (price : Rat) : Fill :=
  { order := order
    execution :=
      { orderId := order.orderId
        time := bar.date
        shares := order.totalQuantity
        price := price
        side := order.action }
    commissionReport := { commission := 0, currency := "USD" }
    time := bar.date }

/-- The body of the "LMT" branch of `execute` (`execution.py` lines 66 to
82), parameterised by the already-read limit price. -/
def limit_branch (order : Order) (bar : BarData) (limit_price : Rat) : Option Fill :=
  if order.action = "BUY" then
    if bar.low ≤ limit_price then
      let fill_price := if bar.«open» ≤ limit_price then bar.«open» else limit_price
      some (fill_at_price order bar fill_price)
    else none
  else if order.action = "SELL" then
    if bar.high ≥ limit_price then
      let fill_price := if bar.«open» ≥ limit_price then bar.«open» else limit_price
      some (fill_at_price order bar fill_price)
    else none
  else none

/-- The body of the "STP" branch of `execute` (`execution.py` lines 88 to
106), parameterised by the already-read stop price. -/
def stop_branch (order : Order) (bar : BarData) (stop_price : Rat) : Option Fill :=
  if order.action = "BUY" then
    if bar.high ≥ stop_price then
      let fill_price := if bar.low ≤ stop_price then stop_price else bar.«open»
      some (fill_at_price order bar fill_price)
    else none
  else if order.action = "SELL" then
    if bar.low ≤ stop_price then
      let fill_price := if bar.high ≥ stop_price then stop_price else bar.«open»
      some (fill_at_price order bar fill_price)
    else none
  else none

/-- The body of the "STP LMT" branch of `execute` (`execution.py` lines
115 to 224), parameterised by the already-read stop and limit prices. -/
def stop_limit_branch (order : Order) (bar : BarData) (stop_price limit_price : Rat) :
    Option Fill :=
  if order.action = "BUY" then
    if bar.high < stop_price then none
    else if limit_price < stop_price ∧ bar.low > stop_price then none
    else
      let trigger_point :=
        if limit_price < stop_price then stop_price
        else if bar.«open» ≥ stop_price then bar.«open»
        else stop_price
      if limit_price ≥ stop_price then
        if bar.low ≤ limit_price ∧ limit_price < trigger_point then
          some (fill_at_price order bar limit_price)
        else if limit_price ≥ trigger_point then
          some (fill_at_price order bar trigger_point)
        else none
      else some (fill_at_price order bar trigger_point)
  else if order.action = "SELL" then
    if bar.low > stop_price then none
    else if limit_price > stop_price ∧ bar.high < stop_price then none
    else
      let trigger_point :=
        if limit_price > stop_price then stop_price
        else if bar.«open» ≤ stop_price then bar.«open»
        else stop_price
      if stop_price > limit_price then
        if bar.high ≥ limit_price ∧ limit_price > trigger_point then
          some (fill_at_price order bar limit_price)
        else if limit_price ≤ trigger_point then
          some (fill_at_price order bar trigger_point)
        else none
      else some (fill_at_price order bar trigger_point)
  else none

/-- Method `ExecutionEngine.execute` (`execution.py` lines 38 to 227).
Market orders fill at the open; the LMT branch first evaluates
`order.lmtPrice` (line 64), the STP branch `order.auxPrice` (line 86),
and the STP LMT branch both (lines 112 to 113) - attribute reads the
`Order` model cannot satisfy, so pydantic raises `AttributeError` there.
Unknown order types raise `ValueError` (line 227). -/
def execute (order : Order) (bar : BarData) : Except PyErr (Option Fill) :=
  if order.orderType = "MKT" then
    .ok (some (fill_at_price order bar bar.«open»))
  else if order.orderType = "LMT" then
    match order.getPriceAttr "lmtPrice" with
    | .error e => .error e
    | .ok limit_price => .ok (limit_branch order bar limit_price)
  else if order.orderType = "STP" then
    match order.getPriceAttr "auxPrice" with
    | .error e => .error e
    | .ok stop_price => .ok (stop_branch order bar stop_price)
  else if order.orderType = "STP LMT" then
    match order.getPriceAttr "auxPrice" with
    | .error e => .error e
    | .ok stop_price =>
      match order.getPriceAttr "lmtPrice" with
      | .error e => .error e
      | .ok limit_price => .ok (stop_limit_branch order bar stop_price limit_price)
  else .error (.unsupportedOrderType order.orderType)

end ExecutionEngine

/-- Result of executing one or more orders against a bar
(`src/src/models/execution_result.py` lines 8 to 12). -/
structure ExecutionResult where
  fills : List Fill := []
  pending_orders : List Order := []

/-- Derived `status` property (`execution_result.py` lines 14 to 36):
PENDING, FILLED or PARTIAL from the emptiness of the two lists; both
empty raises (`ValueError` in the source, the InvariantViolation of the
spec's error taxonomy). -/
def ExecutionResult.status (r : ExecutionResult) : Except PyErr String :=
  let has_fills := r.fills.length > 0
  let has_pending := r.pending_orders.length > 0
  if ¬ has_fills ∧ ¬ has_pending then
    .error (.invariantViolation "Invalid ExecutionResult state: empty result")
  else if ¬ has_fills ∧ has_pending then .ok "PENDING"
  else if has_fills ∧ ¬ has_pending then .ok "FILLED"
  else if has_fills ∧ has_pending then .ok "PARTIAL"
  else .error (.invariantViolation "Unexpected ExecutionResult state")

end XXSim

namespace SpecModel

open XXSim (BarData PyErr)

/-- Modelled from the spec: order action, spec section 3 ("action in
{Buy, Sell}"). -/
inductive SAction where
  | buy
  | sell
  deriving DecidableEq, Repr

/-- Modelled from the spec: the mutable trailing-stop parameters and state
of spec sections 3 and 4.4 - constant trailingDistance xor
trailingPercent, and the carried (extremePrice, stopPrice), initially
unset. -/
structure TrailParams where
  trailingDistance : Option Rat := none
  trailingPercent : Option Rat := none
  extremePrice : Option Rat := none
  stopPrice : Option Rat := none
  deriving DecidableEq, Repr

/-- Modelled from the spec: the tagged union over the order variants of
spec section 3 whose execution behavior the spec defines (section 9
recommends exactly this sum type).  The TrailingStop limit variant is
excluded: its decider is unimplemented and its behavior on invocation is
undefined (spec sections 7 and 9). -/
inductive SVariant where
  | market
  | limit (limitPrice : Rat)
  | stop (stopPrice : Rat)
  | stopLimit (stopPrice limitPrice : Rat)
  | trailMarket (tp : TrailParams)
  deriving DecidableEq, Repr

/-- Modelled from the spec: an order of spec section 3 - id, action,
quantity, variant payload, and the ordered list of children. -/
inductive SOrder where
  | mk (orderId : Nat) (action : SAction) (qty : Rat) (variant : SVariant)
      (children : List SOrder) : SOrder

namespace SOrder

def orderId : SOrder → Nat
  | .mk i _ _ _ _ => i

def action : SOrder → SAction
  | .mk _ a _ _ _ => a

def qty : SOrder → Rat
  | .mk _ _ q _ _ => q

def variant : SOrder → SVariant
  | .mk _ _ _ v _ => v

def children : SOrder → List SOrder
  | .mk _ _ _ _ cs => cs

/-- Replace the variant payload (used to write back trailing state). -/
def setVariant : SOrder → SVariant → SOrder
  | .mk i a q _ cs, v => .mk i a q v cs

/-- Whether the variant carries mutable trailing state. -/
def isTrailing : SOrder → Bool
  | .mk _ _ _ (.trailMarket _) _ => true
  | _ => false

end SOrder

/-- Modelled from the spec: constructor `Market(action, qty)` of spec
section 6 - no children. -/
def SMarket (orderId : Nat) (action : SAction) (qty : Rat) : SOrder :=
  .mk orderId action qty .market []

/-- Modelled from the spec: constructor `Limit(action, qty, limitPrice)`
of spec section 6 - no children. -/
def SLimit (orderId : Nat) (action : SAction) (qty : Rat) (limitPrice : Rat) : SOrder :=
  .mk orderId action qty (.limit limitPrice) []

/-- Modelled from the spec: constructor `Stop(action, qty, stopPrice)` of
spec sections 3 and 6 - one Market child with the same action and
quantity. -/
def SStop (orderId childId : Nat) (action : SAction) (qty : Rat) (stopPrice : Rat) : SOrder :=
  .mk orderId action qty (.stop stopPrice) [SMarket childId action qty]

/-- Modelled from the spec: constructor
`StopLimit(action, qty, limitPrice, stopPrice)` of spec sections 3 and 6 -
one Limit child priced at limitPrice. -/
def SStopLimit (orderId childId : Nat) (action : SAction) (qty : Rat)
    (stopPrice limitPrice : Rat) : SOrder :=
  .mk orderId action qty (.stopLimit stopPrice limitPrice) [SLimit childId action qty limitPrice]

/-- Modelled from the spec: constructor `TrailingStopMarket(action, qty,
trailingDistance | trailingPercent)` of spec sections 3 and 6 - one
Market child, state initially unset. -/
def STrailMarket (orderId childId : Nat) (action : SAction) (qty : Rat)
    (trailingDistance trailingPercent : Option Rat) : SOrder :=
  .mk orderId action qty
    (.trailMarket { trailingDistance := trailingDistance, trailingPercent := trailingPercent })
    [SMarket childId action qty]

/-- Modelled from the spec: the Market decider of spec section 4.2 -
always fills at the bar open. -/
def marketDecider (bar : BarData) : Option Rat :=
  some bar.«open»

/-- Modelled from the spec: the Limit decider of spec section 4.2.  Buy
fills at `min(open, limit)` when `low <= limit`; Sell symmetric. -/
def limitDecider (action : SAction) (limitPrice : Rat) (bar : BarData) : Option Rat :=
  match action with
  | .buy => if bar.low ≤ limitPrice then some (min bar.«open» limitPrice) else none
  | .sell => if bar.high ≥ limitPrice then some (max bar.«open» limitPrice) else none

/-- Modelled from the spec: the Stop decider of spec section 4.2.  Buy
fills at `max(open, stop)` when `high >= stop`; Sell symmetric. -/
def stopDecider (action : SAction) (stopPrice : Rat) (bar : BarData) : Option Rat :=
  match action with
  | .buy => if bar.high ≥ stopPrice then some (max bar.«open» stopPrice) else none
  | .sell => if bar.low ≤ stopPrice then some (min bar.«open» stopPrice) else none

/-- Modelled from the spec: the fragment sequence of spec section 4.4 -
bullish bars (close > open) walk open, low, high, close; all other bars
walk open, high, low, close. -/
def trailFragments (bar : BarData) : List Rat :=
  if bar.close > bar.«open» then [bar.«open», bar.low, bar.high, bar.close]
  else [bar.«open», bar.high, bar.low, bar.close]

/-- Modelled from the spec: the stop price derived from an extreme price
(spec section 4.4) - Buy: extreme + distance or extreme times
(1 + pct/100); Sell: extreme - distance or extreme times (1 - pct/100).
The invariant of spec section 7 guarantees one of the two parameters is
set; if neither is, the extreme itself is returned (unreachable). -/
def trailStopFrom (action : SAction) (dist pct : Option Rat) (extreme : Rat) : Rat :=
  match dist, pct with
  | some d, _ =>
    match action with
    | .buy => extreme + d
    | .sell => extreme - d
  | none, some q =>
    match action with
    | .buy => extreme * (1 + q / 100)
    | .sell => extreme * (1 - q / 100)
  | none, none => extreme

/-- Modelled from the spec: the fragment walk of spec section 4.4.
Arguments: remaining fragments, the current (extremePrice, stopPrice)
state (none when uninitialized), and the previous fragment.  The first
fragment initializes the state; a favorable fragment (Buy: p <= extreme,
Sell: p >= extreme) ratchets it; an adverse fragment at or beyond the
stop triggers, filling at the stop when the previous fragment was
strictly on the favorable side of it and at the fragment price otherwise.
Returns the fill price (if triggered) and the final state. -/
def trailWalk (action : SAction) (dist pct : Option Rat) :
    List Rat → Option (Rat × Rat) → Option Rat → Option Rat × Option (Rat × Rat)
  | [], st, _ => (none, st)
  | p :: rest, none, _ =>
    trailWalk action dist pct rest (some (p, trailStopFrom action dist pct p)) (some p)
  | p :: rest, some (extreme, stp), prev =>
    match action with
    | .buy =>
      if p ≤ extreme then
        trailWalk action dist pct rest (some (p, trailStopFrom action dist pct p)) (some p)
      else if p ≥ stp then
        (some (if (prev.getD p) < stp then stp else p), some (extreme, stp))
      else trailWalk action dist pct rest (some (extreme, stp)) (some p)
    | .sell =>
      if p ≥ extreme then
        trailWalk action dist pct rest (some (p, trailStopFrom action dist pct p)) (some p)
      else if p ≤ stp then
        (some (if (prev.getD p) > stp then stp else p), some (extreme, stp))
      else trailWalk action dist pct rest (some (extreme, stp)) (some p)

/-- Modelled from the spec: the trailing-stop decider of spec section
4.4.  A carried extremePrice is prepended as the first fragment and the
walk starts uninitialized; the resulting state is written back to the
order (the source mutates the order instance in place). -/
def trailDecider (action : SAction) (tp : TrailParams) (bar : BarData) :
    Option Rat × TrailParams :=
  let frags := (match tp.extremePrice with
    | some c => [c]
    | none => []) ++ trailFragments bar
  let r := trailWalk action tp.trailingDistance tp.trailingPercent frags none none
  (r.1,
    { tp with
      extremePrice := r.2.map Prod.fst
      stopPrice := r.2.map Prod.snd })

/-- Modelled from the spec: dispatch on the variant to the per-type
decider (spec section 4.1 step 1).  Returns the fill price, if any, and
the order with trailing state written back (the order itself for all
other variants).  A StopLimit parent acts as the Stop decider (spec
section 4.2, Stop-Limit: the child Limit is routed through the
recursion). -/
def sDecide (o : SOrder) (bar : BarData) : Option Rat × SOrder :=
  match o.variant with
  | .market => (marketDecider bar, o)
  | .limit l => (limitDecider o.action l bar, o)
  | .stop s => (stopDecider o.action s bar, o)
  | .stopLimit s _ => (stopDecider o.action s bar, o)
  | .trailMarket tp =>
    let r := trailDecider o.action tp bar
    (r.1, o.setVariant (.trailMarket r.2))

/-- Modelled from the spec: a fill of spec section 3 - the originating
order, the parent id and the execution price (the execution time and
commission placeholder carry no information and are dropped). -/
structure SFill where
  order : SOrder
  parentId : Nat
  price : Rat

/-- Modelled from the spec: an ExecutionResult, spec section 3 - the
order-preserving fills sequence and the pending orders. -/
structure SResult where
  fills : List SFill := []
  pending : List SOrder := []

/-- Modelled from the spec: the modified-bar construction of spec section
4.3 - the open is replaced by the parent fill price, the extremes are
widened to keep the OHLC invariant, date, close and volume are
preserved. -/
def specModifiedBar (bar : BarData) (p : Rat) : BarData :=
  { bar with «open» := p, high := max p bar.high, low := min p bar.low }

mutual

/-- Modelled from the spec: the recursive executor
`execute(order, bar, parentId)` of spec section 4.1.  Dispatch to the
decider; on a fill, recurse into each child in order against the modified
bar and append their fills and pending orders; on no fill, pend the
(state-updated) order itself, leaving its children dormant on it. -/
def executeS : SOrder → BarData → Nat → SResult
  | o@(.mk i _ _ _ cs), bar, parentId =>
    match sDecide o bar with
    | (none, o2) => { fills := [], pending := [o2] }
    | (some p, o2) =>
      let rest := executeKids cs (specModifiedBar bar p) i
      { fills := { order := o2, parentId := parentId, price := p } :: rest.fills
        pending := rest.pending }

/-- Modelled from the spec: execute each child in declaration order and
append the results (spec section 4.1 step 2). -/
def executeKids (os : List SOrder) (bar : BarData) (parentId : Nat) : SResult :=
  match os with
  | [] => { fills := [], pending := [] }
  | c :: cs =>
    let r1 := executeS c bar parentId
    let r2 := executeKids cs bar parentId
    { fills := r1.fills ++ r2.fills, pending := r1.pending ++ r2.pending }

end

/-- Modelled from the spec: the derived status of spec section 3, with
the same strings the source `ExecutionResult.status` returns. -/
def SResult.status (r : SResult) : Except PyErr String :=
  if r.fills.length = 0 ∧ r.pending.length = 0 then
    .error (.invariantViolation "Invalid ExecutionResult state: empty result")
  else if r.fills.length = 0 then .ok "PENDING"
  else if r.pending.length = 0 then .ok "FILLED"
  else .ok "PARTIAL"

end SpecModel

namespace XXSim

/-- The OHLC invariant of spec section 3: high at least every other
price, low at most every other price. -/
def BarData.validOHLC (b : BarData) : Prop :=
  b.low ≤ b.high ∧ b.«open» ≤ b.high ∧ b.close ≤ b.high ∧
    b.low ≤ b.«open» ∧ b.low ≤ b.close

instance (b : BarData) : Decidable b.validOHLC := by
  unfold BarData.validOHLC
  infer_instance

/-- The standard bullish test bar of the repository's tests and of spec
section 8: open 148, high 152, low 146, close 150. -/
def bullishBar : BarData :=
  { date := 0, «open» := 148, high := 152, low := 146, close := 150, volume := 1000000 }

/-- A valid bar that opens above a stop price of 149 while its low still
reaches below it: open 150, high 152, low 148, close 151. -/
def openAboveStopBar : BarData :=
  { date := 0, «open» := 150, high := 152, low := 148, close := 151, volume := 1000000 }

/-- The trailing-stop scenario bar of spec section 8 case 6: open 100,
high 105, low 95, close 102 (bullish). -/
def trailBar : BarData :=
  { date := 0, «open» := 100, high := 105, low := 95, close := 102, volume := 1000000 }

end XXSim

deriving instance DecidableEq for Except

namespace XXSim

/-- C8: for every ExecutionResult, status is PENDING exactly when fills
is empty and pending_orders is non-empty, FILLED exactly when fills is
non-empty and pending_orders is empty, PARTIAL exactly when both are
non-empty, and on a result with both lists empty accessing status raises
the empty-result invariant violation; hence status is well-defined for
every non-empty result. -/
theorem executionResult_status_partition :
    ∀ (r : ExecutionResult),
      (r.status = .ok "PENDING" ↔ r.fills = [] ∧ r.pending_orders ≠ []) ∧
      (r.status = .ok "FILLED" ↔ r.fills ≠ [] ∧ r.pending_orders = []) ∧
      (r.status = .ok "PARTIAL" ↔ r.fills ≠ [] ∧ r.pending_orders ≠ []) ∧
      (r.status = .error (.invariantViolation "Invalid ExecutionResult state: empty result") ↔
        r.fills = [] ∧ r.pending_orders = []) := by
  intro r
  rcases r with ⟨fills, pending⟩
  cases fills <;> cases pending <;> simp [ExecutionResult.status]

/-- Witness for C8: a result with one pending order and no fills has
status PENDING, by the partition theorem. -/
theorem executionResult_status_partition_witness :
    (ExecutionResult.mk [] [MarketOrder "BUY" 100 1]).status = .ok "PENDING" :=
  (executionResult_status_partition (ExecutionResult.mk [] [MarketOrder "BUY" 100 1])).1.mpr
    ⟨rfl, by simp⟩

/-- C9: a Market order always executes to exactly one fill, priced at the
bar open, and re-invoking the Market decider against any bar with the
same open (in particular a modified bar whose open equals the original
open) produces the same fill price. -/
theorem market_order_fill_open_idempotent :
    ∀ (o : Order) (bar : BarData), o.orderType = "MKT" →
      (ExecutionEngine.execute o bar =
          .ok (some (ExecutionEngine.fill_at_price o bar bar.«open»)) ∧
        (ExecutionEngine.fill_at_price o bar bar.«open»).execution.price = bar.«open») ∧
      ∀ (bar2 : BarData), bar2.«open» = bar.«open» →
        ExecutionEngine.execute o bar2 =
          .ok (some (ExecutionEngine.fill_at_price o bar2 bar2.«open»)) ∧
        (ExecutionEngine.fill_at_price o bar2 bar2.«open»).execution.price = bar.«open» := by
  intro o bar ht
  refine ⟨⟨by simp [ExecutionEngine.execute, ht], rfl⟩, ?_⟩
  intro bar2 h2
  exact ⟨by simp [ExecutionEngine.execute, ht], by simpa [ExecutionEngine.fill_at_price] using h2⟩

/-- Witness for C9: a concrete Market buy against the bullish test bar
and against the modified bar built from its own open price. -/
theorem market_order_fill_open_idempotent_witness :
    ExecutionEngine.execute (MarketOrder "BUY" 100 7) (SpecModel.specModifiedBar bullishBar 148) =
      .ok (some (ExecutionEngine.fill_at_price (MarketOrder "BUY" 100 7)
        (SpecModel.specModifiedBar bullishBar 148)
        (SpecModel.specModifiedBar bullishBar 148).«open»)) ∧
    (ExecutionEngine.fill_at_price (MarketOrder "BUY" 100 7)
        (SpecModel.specModifiedBar bullishBar 148)
        (SpecModel.specModifiedBar bullishBar 148).«open»).execution.price = bullishBar.«open» :=
  (market_order_fill_open_idempotent (MarketOrder "BUY" 100 7) bullishBar rfl).2
    (SpecModel.specModifiedBar bullishBar 148) rfl

/-- The validator `validate_ohlc` succeeds exactly on bars satisfying the
OHLC invariant. -/
theorem validate_ohlc_isOk (b : BarData) :
    (BarData.validate_ohlc b).isOk = true ↔ b.validOHLC := by
  unfold BarData.validate_ohlc BarData.validOHLC
  split_ifs with h1 h2 h3 h4 h5
  · exact ⟨fun hh => by simp [Except.isOk, Except.toBool] at hh,
      fun hh => absurd hh.1 (not_le.mpr h1)⟩
  · exact ⟨fun hh => by simp [Except.isOk, Except.toBool] at hh,
      fun hh => absurd hh.2.1 (not_le.mpr h2)⟩
  · exact ⟨fun hh => by simp [Except.isOk, Except.toBool] at hh,
      fun hh => absurd hh.2.2.1 (not_le.mpr h3)⟩
  · exact ⟨fun hh => by simp [Except.isOk, Except.toBool] at hh,
      fun hh => absurd hh.2.2.2.1 (not_le.mpr h4)⟩
  · exact ⟨fun hh => by simp [Except.isOk, Except.toBool] at hh,
      fun hh => absurd hh.2.2.2.2 (not_le.mpr h5)⟩
  · exact ⟨fun _ => ⟨le_of_not_lt h1, le_of_not_lt h2, le_of_not_lt h3,
      le_of_not_lt h4, le_of_not_lt h5⟩, fun _ => rfl⟩

/-- The OHLC invariant in the max/min form used by the spec. -/
theorem validOHLC_iff_maxmin (b : BarData) :
    b.validOHLC ↔
      (max b.«open» (max b.close b.low) ≤ b.high ∧ b.low ≤ min b.«open» (min b.close b.high)) := by
  unfold BarData.validOHLC
  simp only [max_le_iff, le_min_iff]
  constructor
  · intro hh
    exact ⟨⟨hh.2.1, hh.2.2.1, hh.1⟩, hh.2.2.2.1, hh.2.2.2.2, hh.1⟩
  · intro hh
    exact ⟨hh.1.2.2, hh.1.1, hh.1.2.1, hh.2.1, hh.2.2.1⟩

/-- Every error of `validate_ohlc` is classified InvalidBar. -/
theorem validate_ohlc_error_invalidBar (b : BarData) :
    ∀ e, BarData.validate_ohlc b = .error e → ∃ m, e = .invalidBar m := by
  intro e he
  unfold BarData.validate_ohlc at he
  split_ifs at he <;> injection he with hx <;> exact ⟨_, hx.symm⟩

/-- C10: constructing a BarData succeeds exactly when the date is
present and the OHLC invariant holds (high at least max of open, close,
low, and low at most min of open, close, high); every construction
failure is classified InvalidBar; and `execute` itself never raises
InvalidBar for any order and bar. -/
theorem bar_construct_validation :
    (∀ (d : Option Nat) (o h l c : Rat) (v : Nat),
      ((BarData.construct d o h l c v).isOk ↔
        (d ≠ none ∧ max o (max c l) ≤ h ∧ l ≤ min o (min c h))) ∧
      ∀ e, BarData.construct d o h l c v = .error e → ∃ m, e = .invalidBar m) ∧
    ∀ (ord : Order) (bar : BarData) (msg : String),
      ExecutionEngine.execute ord bar ≠ .error (.invalidBar msg) := by
  constructor
  · intro d o h l c v
    constructor
    · rcases d with _ | dd
      · simp [BarData.construct, BarData.date_required, Except.isOk, Except.toBool]
      · have hred : BarData.construct (some dd) o h l c v =
            BarData.validate_ohlc
              { date := dd, «open» := o, high := h, low := l, close := c, volume := v } := by
          simp [BarData.construct, BarData.date_required]
        rw [hred, validate_ohlc_isOk, validOHLC_iff_maxmin]
        simp
    · intro e he
      rcases d with _ | dd
      · simp only [BarData.construct, BarData.date_required] at he
        injection he with hx
        exact ⟨"date cannot be null", hx.symm⟩
      · simp only [BarData.construct, BarData.date_required] at he
        exact validate_ohlc_error_invalidBar _ e he
  · intro ord bar msg hcontra
    unfold ExecutionEngine.execute at hcontra
    split_ifs at hcontra <;> simp_all [Order.getPriceAttr]

/-- Witness for C10: the bullish test bar constructs successfully, and a
Market order against it cannot raise InvalidBar. -/
theorem bar_construct_validation_witness :
    (BarData.construct (some 0) 148 152 146 150 1000000).isOk ∧
    ExecutionEngine.execute (MarketOrder "BUY" 100 1) bullishBar ≠
      .error (.invalidBar "date cannot be null") :=
  ⟨(bar_construct_validation.1 (some 0) 148 152 146 150 1000000).1.mpr
      ⟨by simp, by decide, by decide⟩,
    bar_construct_validation.2 (MarketOrder "BUY" 100 1) bullishBar "date cannot be null"⟩

/-- C2: the LimitOrder, StopOrder and StopLimitOrder constructors store
their control price in the single `price` field of the Order model with
order types LMT, STP and STP LMT; for every order of one of those three
types, `execute` raises AttributeError (it reads the nonexistent
`lmtPrice` and `auxPrice` attributes) before producing any fill or
no-fill result; and `execute` completes normally exactly for MKT
orders. -/
theorem order_price_field_attribute_errors :
    ∀ (a : String) (q p s l : Rat) (i ci : Nat) (bar : BarData) (o : Order),
      ((LimitOrder a q p i).orderType = "LMT" ∧ (LimitOrder a q p i).price = p) ∧
      ((StopOrder a q s i ci).orderType = "STP" ∧ (StopOrder a q s i ci).price = s) ∧
      ((StopLimitOrder a q l s i ci).orderType = "STP LMT" ∧
        (StopLimitOrder a q l s i ci).price = s) ∧
      ((o.orderType = "LMT" ∨ o.orderType = "STP" ∨ o.orderType = "STP LMT") →
        ExecutionEngine.execute o bar = .error .attributeError) ∧
      ((ExecutionEngine.execute o bar).isOk ↔ o.orderType = "MKT") := by
  intro a q p s l i ci bar o
  refine ⟨⟨rfl, rfl⟩, ⟨rfl, rfl⟩, ⟨rfl, rfl⟩, ?_, ?_⟩
  · intro h
    rcases h with h | h | h <;>
      simp [ExecutionEngine.execute, h, Order.getPriceAttr]
  · by_cases h1 : o.orderType = "MKT"
    · simp [ExecutionEngine.execute, h1, Except.isOk, Except.toBool]
    · by_cases h2 : o.orderType = "LMT"
      · simp [ExecutionEngine.execute, h1, h2, Order.getPriceAttr, Except.isOk, Except.toBool]
      · by_cases h3 : o.orderType = "STP"
        · simp [ExecutionEngine.execute, h1, h2, h3, Order.getPriceAttr, Except.isOk,
            Except.toBool]
        · by_cases h4 : o.orderType = "STP LMT"
          · simp [ExecutionEngine.execute, h1, h2, h3, h4, Order.getPriceAttr, Except.isOk,
              Except.toBool]
          · simp [ExecutionEngine.execute, h1, h2, h3, h4, Except.isOk, Except.toBool]

/-- Witness for C2: a concrete Stop buy order stores 151 in `price` and
raises AttributeError when executed against the bullish test bar. -/
theorem order_price_field_attribute_errors_witness :
    ExecutionEngine.execute (StopOrder "BUY" 100 151 1 2) bullishBar = .error .attributeError ∧
    (StopOrder "BUY" 100 151 1 2).price = 151 := by
  have h := order_price_field_attribute_errors "BUY" 100 151 151 149 1 2 bullishBar
    (StopOrder "BUY" 100 151 1 2)
  exact ⟨h.2.2.2.1 (Or.inr (Or.inl rfl)), h.2.1.2⟩

end XXSim

namespace SpecModel

open XXSim (BarData PyErr)

/-- The decider dispatch preserves the order identity and children; for
non-trailing variants it returns the order unchanged. -/
theorem sDecide_preserves_id_children (o : SOrder) (bar : BarData) :
    ((sDecide o bar).2).orderId = o.orderId ∧ ((sDecide o bar).2).children = o.children ∧
      (o.isTrailing = false → (sDecide o bar).2 = o) := by
  rcases o with ⟨i, a, q, v, cs⟩
  cases v <;>
    simp [sDecide, SOrder.isTrailing, SOrder.variant, SOrder.orderId, SOrder.children,
      SOrder.setVariant, SOrder.action]

/-- Child execution distributes over the child list, preserving
declaration order in both fills and pending orders. -/
theorem executeKids_unfold (cs : List SOrder) (bar : BarData) (pid : Nat) :
    (executeKids cs bar pid).fills = (cs.map fun c => (executeS c bar pid).fills).flatten ∧
      (executeKids cs bar pid).pending = (cs.map fun c => (executeS c bar pid).pending).flatten := by
  induction cs with
  | nil => exact ⟨rfl, rfl⟩
  | cons c cs ih => simp [executeKids, ih.1, ih.2]

/-- C1: for every order and bar, execute(order, bar, parentId=0) returns
an ExecutionResult that is never empty-empty; whenever the decider
produces no fill the pending list is exactly the original order itself
(its identity and children preserved, its children not pended, and for
non-trailing variants literally the same order). -/
theorem executeS_no_fill_pends_original :
    ∀ (o : SOrder) (bar : BarData),
      (¬ ((executeS o bar 0).fills = [] ∧ (executeS o bar 0).pending = [])) ∧
      ∀ (o2 : SOrder), sDecide o bar = (none, o2) →
        executeS o bar 0 = { fills := [], pending := [o2] } ∧
        o2.orderId = o.orderId ∧ o2.children = o.children ∧
        (o.isTrailing = false → o2 = o) := by
  intro o bar
  constructor
  · rcases o with ⟨i, a, q, v, cs⟩
    rcases hd : sDecide (SOrder.mk i a q v cs) bar with ⟨f, o2⟩
    cases f <;> simp [executeS, hd]
  · intro o2 hd
    have hpres := sDecide_preserves_id_children o bar
    rw [hd] at hpres
    rcases o with ⟨i, a, q, v, cs⟩
    exact ⟨by simp [executeS, hd], hpres.1, hpres.2.1, hpres.2.2⟩

/-- Witness for C1: a Limit buy at 145 does not fill on the bullish test
bar (low 146), and the result pends exactly the original order. -/
theorem executeS_no_fill_pends_original_witness :
    executeS (SLimit 1 .buy 100 145) XXSim.bullishBar 0 =
      { fills := [], pending := [SLimit 1 .buy 100 145] } :=
  ((executeS_no_fill_pends_original (SLimit 1 .buy 100 145) XXSim.bullishBar).2
    (SLimit 1 .buy 100 145) (by rfl)).1

/-- C3: a Stop buy at 151 against the bullish test bar yields exactly two
fills at 151, the parent Stop fill first (parentId 0) and the child
Market fill second (parentId 1), with status FILLED; and in general the
fills of one execute call are the parent fill followed by the children's
fills in declaration order. -/
theorem stop_buy_two_fills_parent_first :
    ((executeS (SStop 1 2 .buy 100 151) XXSim.bullishBar 0).fills.map
        (fun f => (f.order.orderId, f.parentId, f.price)) = [(1, 0, 151), (2, 1, 151)] ∧
      (executeS (SStop 1 2 .buy 100 151) XXSim.bullishBar 0).fills.map
        (fun f => f.order.variant) = [.stop 151, .market] ∧
      (executeS (SStop 1 2 .buy 100 151) XXSim.bullishBar 0).status = .ok "FILLED") ∧
    ∀ (o : SOrder) (bar : BarData) (pid : Nat) (p : Rat) (o2 : SOrder),
      sDecide o bar = (some p, o2) →
      (executeS o bar pid).fills =
        { order := o2, parentId := pid, price := p } ::
          (o.children.map fun c => (executeS c (specModifiedBar bar p) o.orderId).fills).flatten := by
  constructor
  · exact ⟨by decide, by decide, by decide⟩
  · intro o bar pid p o2 hd
    rcases o with ⟨i, a, q, v, cs⟩
    simp [executeS, hd, (executeKids_unfold cs (specModifiedBar bar p) i).1,
      SOrder.children, SOrder.orderId]

/-- Witness for C3: the general ordering equation instantiated at a
concrete Stop buy whose decider fills at 151. -/
theorem stop_buy_two_fills_parent_first_witness :
    (executeS (SStop 3 4 .buy 100 151) XXSim.bullishBar 0).fills =
      { order := SStop 3 4 .buy 100 151, parentId := 0, price := 151 } ::
        ((SStop 3 4 .buy 100 151).children.map fun c =>
          (executeS c (specModifiedBar XXSim.bullishBar 151) 3).fills).flatten :=
  stop_buy_two_fills_parent_first.2 (SStop 3 4 .buy 100 151) XXSim.bullishBar 0 151
    (SStop 3 4 .buy 100 151) (by rfl)

/-- C5: a StopLimit buy with stop 151 and limit 149 (inverted "dipping"
ordering) against the bullish test bar fills twice, at 151 (the parent
stop, parentId 0) and then at 149 (the child limit against the modified
bar, parentId 1), status FILLED; the modified bar for the child has open
151, and the child limit 149 fills at the limit because it lies below
that open and within the modified bar's range. -/
theorem stop_limit_dipping_two_fills :
    (executeS (SStopLimit 1 2 .buy 100 151 149) XXSim.bullishBar 0).fills.map
        (fun f => (f.parentId, f.price)) = [(0, 151), (1, 149)] ∧
    (executeS (SStopLimit 1 2 .buy 100 151 149) XXSim.bullishBar 0).pending.length = 0 ∧
    (executeS (SStopLimit 1 2 .buy 100 151 149) XXSim.bullishBar 0).status = .ok "FILLED" ∧
    specModifiedBar XXSim.bullishBar 151 =
      { date := 0, «open» := 151, high := 152, low := 146, close := 150, volume := 1000000 } ∧
    limitDecider .buy 149 (specModifiedBar XXSim.bullishBar 151) = some 149 :=
  ⟨by decide, by decide, by decide, by decide, by decide⟩

/-- C6: a TrailingStop buy with distance 10 and no carried state against
the bullish bar open 100, high 105, low 95, close 102 walks the
fragments open, low, high, close: the open initializes extreme 100 and
stop 110, the low ratchets to extreme 95 and stop 105, and the high
triggers with fill price equal to the stop 105 (the previous fragment 95
is strictly below the stop); the result is two fills at 105 with status
FILLED. -/
theorem trailing_stop_fragment_walk_scenario :
    trailFragments XXSim.trailBar = [100, 95, 105, 102] ∧
    trailWalk .buy (some 10) none [100] none none = (none, some (100, 110)) ∧
    trailWalk .buy (some 10) none [100, 95] none none = (none, some (95, 105)) ∧
    trailWalk .buy (some 10) none [100, 95, 105, 102] none none = (some 105, some (95, 105)) ∧
    (executeS (STrailMarket 1 2 .buy 100 (some 10) none) XXSim.trailBar 0).fills.map SFill.price =
      [105, 105] ∧
    (executeS (STrailMarket 1 2 .buy 100 (some 10) none) XXSim.trailBar 0).status =
      .ok "FILLED" := by
  refine ⟨by decide, ?_, ?_, ?_, ?_, ?_⟩ <;>
    norm_num [executeS, executeKids, sDecide, trailDecider, trailFragments, trailWalk,
      trailStopFrom, STrailMarket, SMarket, specModifiedBar, marketDecider, SResult.status,
      SOrder.variant, SOrder.action, SOrder.children, SOrder.setVariant, SOrder.orderId,
      XXSim.trailBar]

end SpecModel

namespace XXSim

/-- The "BUY" branch of the stop logic in closed form (`execution.py`
lines 88 to 95). -/
theorem stop_branch_buy_eq (o : Order) (bar : BarData) (s : Rat) (hb : o.action = "BUY") :
    ExecutionEngine.stop_branch o bar s =
      if bar.high ≥ s then
        some (ExecutionEngine.fill_at_price o bar (if bar.low ≤ s then s else bar.«open»))
      else none := by
  unfold ExecutionEngine.stop_branch
  rw [hb]
  simp

/-- The "SELL" branch of the stop logic in closed form (`execution.py`
lines 97 to 106). -/
theorem stop_branch_sell_eq (o : Order) (bar : BarData) (s : Rat) (hb : o.action = "SELL") :
    ExecutionEngine.stop_branch o bar s =
      if bar.low ≤ s then
        some (ExecutionEngine.fill_at_price o bar (if bar.high ≥ s then s else bar.«open»))
      else none := by
  unfold ExecutionEngine.stop_branch
  rw [hb]
  simp

/-- C4 counterexample: against the valid bar open 150, high 152, low
148, close 151, the source stop logic fills a Buy stop 149 at the stop
price 149 even though max(open, stopPrice) = 150, so the claimed fill
price formula fails; moreover executing the corresponding StopOrder
raises AttributeError rather than filling at all. -/
theorem stop_fill_not_max_counterexample :
    (ExecutionEngine.stop_branch (StopOrder "BUY" 100 149 1 2) openAboveStopBar 149).map
        (fun f => f.execution.price) = some 149 ∧
    max openAboveStopBar.«open» (149 : Rat) = 150 ∧
    (149 : Rat) ≠ 150 ∧
    openAboveStopBar.validOHLC ∧
    ExecutionEngine.execute (StopOrder "BUY" 100 149 1 2) openAboveStopBar =
      .error .attributeError :=
  ⟨by decide, by decide, by decide, by decide, by rfl⟩

/-- C4 amended: for a valid bar, the source stop logic triggers a Buy
exactly when high is at least the stop, filling at max(open, stop)
whenever the bar opens at or below the stop or gaps entirely above it,
but at the stop price itself (below the open, not the claimed max) when
the bar opens above a stop that the bar low still reaches; Sell is
symmetric with min(open, stop) and the exception open < stop <= high. -/
theorem stop_branch_fill_rule :
    ∀ (o : Order) (bar : BarData) (s : Rat), bar.validOHLC →
      (o.action = "BUY" →
        ((ExecutionEngine.stop_branch o bar s = none) ↔ bar.high < s) ∧
        (s ≤ bar.high → (bar.«open» ≤ s ∨ s < bar.low) →
          (ExecutionEngine.stop_branch o bar s).map (fun f => f.execution.price) =
            some (max bar.«open» s)) ∧
        (bar.low ≤ s → s < bar.«open» →
          (ExecutionEngine.stop_branch o bar s).map (fun f => f.execution.price) = some s)) ∧
      (o.action = "SELL" →
        ((ExecutionEngine.stop_branch o bar s = none) ↔ s < bar.low) ∧
        (bar.low ≤ s → (s ≤ bar.«open» ∨ bar.high < s) →
          (ExecutionEngine.stop_branch o bar s).map (fun f => f.execution.price) =
            some (min bar.«open» s)) ∧
        (bar.«open» < s → s ≤ bar.high →
          (ExecutionEngine.stop_branch o bar s).map (fun f => f.execution.price) = some s)) := by
  intro o bar s hv
  rcases hv with ⟨hlh, hoh, hch, hlo, hlc⟩
  constructor
  · intro hb
    rw [stop_branch_buy_eq o bar s hb]
    refine ⟨?_, ?_, ?_⟩
    · split_ifs with htr
      · simp only [reduceCtorEq, false_iff]
        intro hcon
        exact absurd htr (not_le.mpr hcon)
      · simp only [true_iff]
        exact not_le.mp htr
    · intro h1 h2
      rw [if_pos (by exact h1 : bar.high ≥ s)]
      by_cases hls : bar.low ≤ s
      · rw [if_pos hls]
        have hop : bar.«open» ≤ s := by
          rcases h2 with h2 | h2
          · exact h2
          · linarith
        simp [ExecutionEngine.fill_at_price, max_eq_right hop]
      · rw [if_neg hls]
        have hso : s ≤ bar.«open» := by
          have hx : s < bar.low := not_le.mp hls
          linarith
        simp [ExecutionEngine.fill_at_price, max_eq_left hso]
    · intro h1 h2
      have htr : bar.high ≥ s := by linarith
      rw [if_pos htr, if_pos h1]
      simp [ExecutionEngine.fill_at_price]
  · intro hb
    rw [stop_branch_sell_eq o bar s hb]
    refine ⟨?_, ?_, ?_⟩
    · split_ifs with htr
      · simp only [reduceCtorEq, false_iff]
        intro hcon
        exact absurd htr (not_le.mpr hcon)
      · simp only [true_iff]
        exact not_le.mp htr
    · intro h1 h2
      rw [if_pos h1]
      by_cases hhs : bar.high ≥ s
      · rw [if_pos hhs]
        have hop : s ≤ bar.«open» := by
          rcases h2 with h2 | h2
          · exact h2
          · linarith
        simp [ExecutionEngine.fill_at_price, min_eq_right hop]
      · rw [if_neg hhs]
        have hso : bar.«open» ≤ s := by
          have hx : bar.high < s := not_le.mp hhs
          linarith
        simp [ExecutionEngine.fill_at_price, min_eq_left hso]
    · intro h1 h2
      have htr : bar.low ≤ s := by linarith
      rw [if_pos htr, if_pos (by exact h2 : bar.high ≥ s)]
      simp [ExecutionEngine.fill_at_price]

/-- Witness for the amended C4: a Sell stop 147 on the bullish test bar
fills at min(open, stop) = 147. -/
theorem stop_branch_fill_rule_witness :
    (ExecutionEngine.stop_branch (StopOrder "SELL" 100 147 5 6) bullishBar 147).map
        (fun f => f.execution.price) = some (min bullishBar.«open» 147) :=
  ((stop_branch_fill_rule (StopOrder "SELL" 100 147 5 6) bullishBar 147 (by decide)).2
    rfl).2.1 (by decide) (Or.inl (by decide))

/-- The "BUY" branch of the limit logic in closed form (`execution.py`
lines 66 to 72). -/
theorem limit_branch_buy_eq (o : Order) (bar : BarData) (l : Rat) (hb : o.action = "BUY") :
    ExecutionEngine.limit_branch o bar l =
      if bar.low ≤ l then
        some (ExecutionEngine.fill_at_price o bar
          (if bar.«open» ≤ l then bar.«open» else l))
      else none := by
  unfold ExecutionEngine.limit_branch
  rw [hb]
  simp

/-- The "SELL" branch of the limit logic in closed form (`execution.py`
lines 74 to 82). -/
theorem limit_branch_sell_eq (o : Order) (bar : BarData) (l : Rat) (hb : o.action = "SELL") :
    ExecutionEngine.limit_branch o bar l =
      if bar.high ≥ l then
        some (ExecutionEngine.fill_at_price o bar
          (if bar.«open» ≥ l then bar.«open» else l))
      else none := by
  unfold ExecutionEngine.limit_branch
  rw [hb]
  simp

/-- C7 (code bug evidence): executing the Limit buy order at 147 that
the repository's own test expects to fill at 147 instead raises
AttributeError, while the limit price logic of lines 66 to 82, fed the
limit price the engine tried to read, does produce exactly the claimed
fill; in general that logic fills a Buy exactly when low is at or below
the limit, at min(open, limit), and a Sell exactly when high is at or
above the limit, at max(open, limit). -/
theorem limit_order_attribute_error_vs_decider :
    (ExecutionEngine.execute (LimitOrder "BUY" 100 147 1) bullishBar =
      .error .attributeError) ∧
    (ExecutionEngine.limit_branch (LimitOrder "BUY" 100 147 1) bullishBar 147).map
        (fun f => f.execution.price) = some 147 ∧
    ∀ (o : Order) (bar : BarData) (l : Rat),
      (o.action = "BUY" →
        (ExecutionEngine.limit_branch o bar l).map (fun f => f.execution.price) =
          if bar.low ≤ l then some (min bar.«open» l) else none) ∧
      (o.action = "SELL" →
        (ExecutionEngine.limit_branch o bar l).map (fun f => f.execution.price) =
          if bar.high ≥ l then some (max bar.«open» l) else none) := by
  refine ⟨by rfl, by decide, ?_⟩
  intro o bar l
  constructor
  · intro hb
    rw [limit_branch_buy_eq o bar l hb]
    split_ifs with h1 h2
    · simp [ExecutionEngine.fill_at_price, min_eq_left h2]
    · simp [ExecutionEngine.fill_at_price, min_eq_right (le_of_lt (not_le.mp h2))]
    · rfl
  · intro hb
    rw [limit_branch_sell_eq o bar l hb]
    split_ifs with h1 h2
    · simp [ExecutionEngine.fill_at_price, max_eq_left h2]
    · simp [ExecutionEngine.fill_at_price, max_eq_right (le_of_lt (not_le.mp h2))]
    · rfl

/-- Witness for C7's general limit rule: a Sell limit 151 on the bullish
test bar. -/
theorem limit_order_attribute_error_vs_decider_witness :
    (ExecutionEngine.limit_branch (LimitOrder "SELL" 100 151 9) bullishBar 151).map
        (fun f => f.execution.price) =
      if bullishBar.high ≥ (151 : Rat) then some (max bullishBar.«open» 151) else none :=
  (limit_order_attribute_error_vs_decider.2.2 (LimitOrder "SELL" 100 151 9) bullishBar 151).2
    rfl

end XXSim
